import Mathlib

/-!
Verification development for the workout-planner progression-recommendation
pipeline.  The definitions below are a shallow embedding of the JavaScript
service code (server/services/claude.js, server/routes/analysis.js,
server/utils/warmupCalculator.js): JavaScript numbers are modelled as exact
rationals, `null`/`undefined` as `Option`, objects with a fixed field set as
structures, and JSON maps as association lists in key-insertion order.
-/

/-! ## JavaScript number and truthiness helpers -/

/-- JavaScript `Math.round`: round half toward positive infinity. -/
def jsRound (q : ℚ) : ℤ := ⌊q + 1/2⌋

/-- JavaScript `x || y` on a nullable number `x` with a plain-number
fallback `y`: `0`, `null` and `undefined` are falsy. -/
def jsTruthyOr (x : Option ℚ) (y : ℚ) : ℚ :=
  match x with
  | some v => if v = 0 then y else v
  | none => y

/-- JavaScript `x || y` on two nullable numbers: `0`, `null` and
`undefined` are falsy. -/
def jsOrOpt (x y : Option ℚ) : Option ℚ :=
  match x with
  | some v => if v = 0 then y else some v
  | none => y

/-- Rendering of a number into a log/reason string (exact for the integer
weights that occur in practice). -/
def qToString (q : ℚ) : String := toString q

/-- First entry of an association list with the given key
(JavaScript `object[key]` for string-keyed objects). -/
def lookupAssoc {α : Type} (l : List (String × α)) (k : String) : Option α :=
  match l.find? (fun p => p.1 = k) with
  | some p => some p.2
  | none => none

/-! ## warmupCalculator.js: equipment classification and rounding -/

/-- `EQUIPMENT_MAP` from warmupCalculator.js. -/
def EQUIPMENT_MAP : List (String × String) :=
  [("Incline DB Press", "dumbbell"),
   ("DB Bicep Curl", "dumbbell"),
   ("DB Lateral Raise", "dumbbell"),
   ("Flat DB Press", "dumbbell"),
   ("Seated DB Shoulder Press", "dumbbell"),
   ("T-Bar Row", "barbell"),
   ("Romanian Deadlift", "barbell"),
   ("EZ Bar Skull Crusher", "barbell"),
   ("EZ Bar Curl", "barbell")]

/-- `getEquipmentType`: equipment lookup, default `"machine"`. -/
def getEquipmentType (exerciseName : String) : String :=
  (lookupAssoc EQUIPMENT_MAP exerciseName).getD "machine"

/-- `roundWeight(weight, equipmentType)` from warmupCalculator.js:
dumbbells round to 1 kg with a floor of 4 kg, barbells to 10 kg,
machines (the default) to 5 kg. -/
def roundWeight (weight : ℚ) (equipmentType : String) : ℚ :=
  if equipmentType = "dumbbell" then
    max ((jsRound weight : ℤ) : ℚ) 4
  else if equipmentType = "barbell" then
    ((jsRound (weight / 10) : ℤ) : ℚ) * 10
  else
    ((jsRound (weight / 5) : ℤ) : ℚ) * 5

/-- `roundWeightByExercise(weight, exerciseName)` from warmupCalculator.js. -/
def roundWeightByExercise (weight : ℚ) (exerciseName : String) : ℚ :=
  roundWeight weight (getEquipmentType exerciseName)

/-! ## claude.js: set-log rows and metric functions -/

/-- One set-log row as the analysis code reads it from the database
(joined with the exercise name and the session week). -/
structure SetLog where
  exercise_name : String := ""
  muscle_group : String := ""
  set_type : String := ""
  target_weight : Option ℚ := none
  actual_weight : Option ℚ := none
  target_reps : Option ℤ := none
  actual_reps : Option ℤ := none
  rpe : Option ℤ := none
  notes : Option String := none
  week : ℕ := 1
deriving DecidableEq, Repr

/-- `calculateTargetHitRate`: percentage of sets with `actual_reps ≥
target_reps` among sets where both are non-null; `100` when no such set
exists. -/
def calculateTargetHitRate (setLogs : List SetLog) : ℤ :=
  let relevantLogs := setLogs.filter
    (fun log => log.target_reps.isSome && log.actual_reps.isSome)
  if relevantLogs.length = 0 then 100
  else
    let hits := (relevantLogs.filter (fun log =>
      match log.actual_reps, log.target_reps with
      | some a, some t => decide (t ≤ a)
      | _, _ => false)).length
    jsRound (((hits : ℚ) / (relevantLogs.length : ℚ)) * 100)

/-- Insert into a descending-sorted list of naturals (used to model the
JavaScript `weeks.sort((a, b) => b - a)` on distinct week numbers). -/
def insertDescNat (x : ℕ) : List ℕ → List ℕ
  | [] => [x]
  | y :: ys => if y ≤ x then x :: y :: ys else y :: insertDescNat x ys

/-- Sort a list of naturals in descending order. -/
def sortDescNat (l : List ℕ) : List ℕ := l.foldl (fun acc x => insertDescNat x acc) []

/-- The distinct week numbers occurring in the logs, descending
(`Object.keys(weeklyVolume).sort((a, b) => b - a)`; week numbers in this
system are positive, so the `|| 'unknown'` key never arises). -/
def sortedDistinctWeeksDesc (logs : List SetLog) : List ℕ :=
  sortDescNat (logs.map (·.week)).dedup

/-- Total tonnage `Σ (actual_weight || 0) * (actual_reps || 0)` of the
logs belonging to week `w`. -/
def weekTonnage (logs : List SetLog) (w : ℕ) : ℚ :=
  ((logs.filter (·.week = w)).map
    (fun l => l.actual_weight.getD 0 * ((l.actual_reps.getD 0 : ℤ) : ℚ))).sum

/-- Number of sets logged in week `w`. -/
def weekSets (logs : List SetLog) (w : ℕ) : ℕ :=
  (logs.filter (·.week = w)).length

/-- Result shape of `calculateWeeklyVolume`. -/
structure VolumeTrend where
  trend : String
  totalSets : ℕ
deriving DecidableEq, Repr

/-- `calculateWeeklyVolume`: compare the latest week's tonnage against the
previous week's with strict ±5 % thresholds. -/
def calculateWeeklyVolume (previousData : List SetLog) : VolumeTrend :=
  if previousData.length = 0 then ⟨"brak danych", 0⟩
  else
    match sortedDistinctWeeksDesc previousData with
    | [] => ⟨"niewystarczajace dane", 0⟩
    | [w] => ⟨"niewystarczajace dane", weekSets previousData w⟩
    | w1 :: w2 :: _ =>
      let latest := weekTonnage previousData w1
      let previous := weekTonnage previousData w2
      if latest > previous * 1.05 then ⟨"rosnacy (+5%)", weekSets previousData w1⟩
      else if latest < previous * 0.95 then ⟨"malejacy (-5%)", weekSets previousData w1⟩
      else ⟨"stabilny", weekSets previousData w1⟩

/-- Substring containment (JavaScript `String.prototype.includes`). -/
def strContainsSub (s pat : String) : Bool := decide (List.IsInfix pat.toList s.toList)

/-- `issueKeywords` table from `extractRecurringIssues`, in source order. -/
def issueKeywords : List (String × String) :=
  [("bol", "Bol/dyskomfort"),
   ("boli", "Bol/dyskomfort"),
   ("kolano", "Problem z kolanem"),
   ("plecy", "Problem z plecami"),
   ("bark", "Problem z barkiem"),
   ("nadgarstek", "Problem z nadgarstkiem"),
   ("zmeczenie", "Zmeczenie"),
   ("zmeczony", "Zmeczenie"),
   ("slabo", "Slaba forma"),
   ("technika", "Problemy z technika"),
   ("forma", "Problemy z forma")]

/-- `extractRecurringIssues`: case-insensitive keyword match over all
notes, deduplicated in first-found order (a JavaScript `Set`). -/
def extractRecurringIssues (previousData : List SetLog) : List String :=
  previousData.foldl (fun found log =>
    match log.notes with
    | none => found
    | some n =>
      issueKeywords.foldl (fun fnd kv =>
        if strContainsSub n.toLower kv.1 && !(fnd.contains kv.2) then fnd ++ [kv.2]
        else fnd) found) []

/-! ## claude.js: light-session suggestion -/

/-- One entry pushed into `exerciseProgress` (`{ week, weight }`). -/
structure WeekWeight where
  week : ℕ
  weight : Option ℚ
deriving DecidableEq, Repr

/-- Insert into a week-descending list, after entries of equal week
(JavaScript's stable `sort((a, b) => b.week - a.week)`). -/
def insertByWeekDesc (x : WeekWeight) : List WeekWeight → List WeekWeight
  | [] => [x]
  | y :: ys => if y.week < x.week then x :: y :: ys else y :: insertByWeekDesc x ys

/-- Stable sort by week, descending. -/
def sortByWeekDesc (l : List WeekWeight) : List WeekWeight :=
  l.foldl (fun acc x => insertByWeekDesc x acc) []

/-- Append `v` to the group keyed by exercise name and set type, keeping
key-insertion order (a JavaScript object keyed by name-underscore-type;
names contain no underscore, so the key is faithfully a pair). -/
def addToGroups (gs : List ((String × String) × List WeekWeight))
    (k : String × String) (v : WeekWeight) : List ((String × String) × List WeekWeight) :=
  match gs with
  | [] => [(k, [v])]
  | g :: rest => if g.1 = k then (g.1, g.2 ++ [v]) :: rest else g :: addToGroups rest k v

/-- The `exerciseProgress` grouping of `shouldSuggestLightSession`. -/
def exerciseProgressGroups (historyData : List SetLog) : List ((String × String) × List WeekWeight) :=
  historyData.foldl
    (fun gs log => addToGroups gs (log.exercise_name, log.set_type) ⟨log.week, log.actual_weight⟩) []

/-- `Math.max(...ws)` over the three selected weights (never called on an
empty list; `null` weights coerce to `0`). -/
def maxOfWeights : List ℚ → ℚ
  | [] => 0
  | a :: rest => rest.foldl max a

/-- `Math.min(...ws)` over the three selected weights. -/
def minOfWeights : List ℚ → ℚ
  | [] => 0
  | a :: rest => rest.foldl min a

/-- Result shape of `shouldSuggestLightSession`. -/
structure LightSessionResult where
  suggest : Bool
  reason : String
  severity : String
deriving DecidableEq, Repr

/-- `shouldSuggestLightSession(historyData, currentSession)`: requires at
least 6 history rows, then checks stagnation, recent RPE-10 rate,
recurring pain notes, and week-over-week strength regression. -/
def shouldSuggestLightSession (historyData : List SetLog) (currentWeek : ℕ) : LightSessionResult :=
  if historyData.length < 6 then ⟨false, "Niewystarczajace dane historyczne", "none"⟩
  else
    let groups := exerciseProgressGroups historyData
    let acc1 := groups.foldl (fun (acc : List String × String) g =>
      let sortedData := sortByWeekDesc g.2
      if 3 ≤ sortedData.length then
        let weights := (sortedData.take 3).map (fun d => d.weight.getD 0)
        let maxWeight := maxOfWeights weights
        let minWeight := minOfWeights weights
        if 0 < maxWeight ∧ (maxWeight - minWeight) / maxWeight < 0.02 then
          (acc.1 ++ ["Stagnacja w " ++ g.1.1 ++ " przez 3+ tygodnie"], "moderate")
        else acc
      else acc) ([], "none")
    let recentLogs := historyData.filter (fun log => (currentWeek : ℤ) - 1 ≤ (log.week : ℤ))
    let rpe10Count := (recentLogs.filter (fun log =>
      match log.rpe with
      | some r => decide (10 ≤ r)
      | none => false)).length
    let acc2 :=
      if 5 ≤ recentLogs.length ∧ (0.7 : ℚ) < (rpe10Count : ℚ) / (recentLogs.length : ℚ) then
        (acc1.1 ++ ["Ponad 70% serii na RPE 10 (failure) w ostatnich 2 tygodniach"], "high")
      else acc1
    let recurringIssues := extractRecurringIssues historyData
    let acc3 :=
      if recurringIssues.any (fun issue => strContainsSub issue "Bol" || strContainsSub issue "Problem") then
        (acc2.1 ++ ["Powtarzajace sie notatki o bolu/dyskomforcie"],
         if acc2.2 = "high" then "high" else "moderate")
      else acc2
    let acc4 := groups.foldl (fun (acc : List String × String) g =>
      let sortedData := sortByWeekDesc g.2
      if 2 ≤ sortedData.length ∧
          (sortedData.head?.map (fun d => d.weight.getD 0)).getD 0 <
            ((sortedData.getLast?.map (fun d => d.weight.getD 0)).getD 0) * 0.9 then
        (acc.1 ++ ["Spadek sily o >10% w " ++ g.1.1], "high")
      else acc) acc3
    ⟨acc4.1 ≠ [], String.intercalate "; " acc4.1, acc4.2⟩

/-! ## claude.js: recommendation validator -/

/-- One set of the current session's per-exercise data (camel-cased shape
built by `analyzeWorkout`). -/
structure ExSet where
  type : String := ""
  targetWeight : Option ℚ := none
  actualWeight : Option ℚ := none
deriving DecidableEq, Repr

/-- Per-exercise current-session data (`exerciseData[name]`). -/
structure ExData where
  sets : List ExSet := []
deriving DecidableEq, Repr

/-- An AI recommendation entry for one exercise. -/
structure Recommendation where
  heavy_weight : Option ℚ := none
  backoff_weight : Option ℚ := none
  working_weight : Option ℚ := none
  dropset_weight : Option ℚ := none
  reason : Option String := none
deriving DecidableEq, Repr

/-- `EXERCISE_SET_CONFIG` from claude.js: allowed set types per
(exercise name, day). -/
def EXERCISE_SET_CONFIG_TABLE : List ((String × ℕ) × List String) :=
  [(("Leg Press", 1), ["heavy", "backoff"]),
   (("Incline DB Press", 1), ["working"]),
   (("Seated Hamstring Curl", 1), ["working"]),
   (("T-Bar Row", 1), ["working"]),
   (("DB Bicep Curl", 1), ["working", "dropset"]),
   (("DB Lateral Raise", 1), ["working", "dropset"]),
   (("Machine Crunch", 1), ["working", "dropset"]),
   (("Flat DB Press", 2), ["heavy", "backoff"]),
   (("2-Grip Lat Pulldown", 2), ["working"]),
   (("Seated DB Shoulder Press", 2), ["working"]),
   (("Seated Cable Row", 2), ["working", "dropset"]),
   (("EZ Bar Skull Crusher", 2), ["working"]),
   (("EZ Bar Curl", 2), ["working"]),
   (("Machine Crunch", 2), ["working", "dropset"]),
   (("Romanian Deadlift", 3), ["working"]),
   (("Leg Press", 3), ["working"]),
   (("Leg Extension", 3), ["working", "dropset"]),
   (("Seated Calf Raise", 3), ["working"]),
   (("Machine Crunch", 3), ["working"])]

/-- Config lookup by exercise name and day. -/
def EXERCISE_SET_CONFIG (exerciseName : String) (day : ℕ) : Option (List String) :=
  (EXERCISE_SET_CONFIG_TABLE.find? (fun p => p.1 = (exerciseName, day))).map (·.2)

/-- A `programRules.exerciseRules` entry. -/
structure ExerciseRule where
  type : String := ""
  progressionStep : Option ℚ := none
deriving DecidableEq, Repr

/-- `getMaxWeeklyIncrease`: the per-exercise hard cap; the rule's
`progressionStep` when truthy, else 5 for compound / 2 for isolation,
and 5 when no rule exists. -/
def getMaxWeeklyIncrease (exerciseRules : List (String × ExerciseRule)) (exerciseName : String) : ℚ :=
  match lookupAssoc exerciseRules exerciseName with
  | none => 5
  | some rule => jsTruthyOr rule.progressionStep (if rule.type = "compound" then 5 else 2)

/-- `(x.reason || '') + s`. -/
def appendReason (r : Option String) (s : String) : Option String := some (r.getD "" ++ s)

/-- JavaScript `x || y` on a nullable string: `null`, `undefined` and the
empty string are falsy. -/
def jsStrOr (x : Option String) (y : String) : String :=
  match x with
  | some s => if s = "" then y else s
  | none => y

/-- The four deletion checks of the validator's whitelist filter
(claude.js lines 777-792), producing the filtered copy and the
`removedTypes` annotations in source order. -/
def filterFieldsByAllowed (allowedTypes : List String) (r : Recommendation) :
    Recommendation × List String :=
  let acc := (r, ([] : List String))
  let acc := if !(allowedTypes.contains "heavy") ∧ r.heavy_weight.isSome then
      ({ acc.1 with heavy_weight := none },
       acc.2 ++ ["heavy_weight=" ++ qToString (r.heavy_weight.getD 0)])
    else acc
  let acc := if !(allowedTypes.contains "backoff") ∧ r.backoff_weight.isSome then
      ({ acc.1 with backoff_weight := none },
       acc.2 ++ ["backoff_weight=" ++ qToString (r.backoff_weight.getD 0)])
    else acc
  let acc := if !(allowedTypes.contains "working") ∧ r.working_weight.isSome then
      ({ acc.1 with working_weight := none },
       acc.2 ++ ["working_weight=" ++ qToString (r.working_weight.getD 0)])
    else acc
  let acc := if !(allowedTypes.contains "dropset") ∧ r.dropset_weight.isSome then
      ({ acc.1 with dropset_weight := none },
       acc.2 ++ ["dropset_weight=" ++ qToString (r.dropset_weight.getD 0)])
    else acc
  acc

/-- `Object.assign(rec, filteredRec)`: `delete` removed the key from
`filteredRec`, so the assignment copies back every surviving field but
leaves `rec`'s original value in place for each deleted key; a field
that is absent on the source keeps the target's value. -/
def objectAssignRec (target src : Recommendation) : Recommendation :=
  { heavy_weight := src.heavy_weight.orElse (fun _ => target.heavy_weight),
    backoff_weight := src.backoff_weight.orElse (fun _ => target.backoff_weight),
    working_weight := src.working_weight.orElse (fun _ => target.working_weight),
    dropset_weight := src.dropset_weight.orElse (fun _ => target.dropset_weight),
    reason := src.reason.orElse (fun _ => target.reason) }

/-- The whitelist-filter block at the top of `validateRecommendations`
(claude.js lines 768-801), ending in `Object.assign(rec, filteredRec)`. -/
def setConfigFilterStep (day : Option ℕ) (exerciseName : String) (r : Recommendation) :
    Recommendation :=
  match day with
  | none => r
  | some d =>
    match EXERCISE_SET_CONFIG exerciseName d with
    | none => r
    | some allowedTypes =>
      let fr := filterFieldsByAllowed allowedTypes r
      let note := " [Filtered: " ++ String.intercalate ", " fr.2 ++ " - not valid for D" ++ toString d ++ "]"
      let filteredRec :=
        if fr.2 ≠ [] then { fr.1 with reason := appendReason fr.1.reason note }
        else fr.1
      objectAssignRec r filteredRec

/-- `Math.max(0, roundWeightByExercise(v, name))`. -/
def roundFieldMax0 (exerciseName : String) (v : ℚ) : ℚ :=
  max 0 (roundWeightByExercise v exerciseName)

/-- The zero-baseline degraded path (claude.js lines 817-838): coerce,
round and clamp each present field to be non-negative. -/
def zeroBaselineValidate (exerciseName : String) (r : Recommendation) : Recommendation :=
  { r with
    heavy_weight := r.heavy_weight.map (roundFieldMax0 exerciseName),
    backoff_weight := r.backoff_weight.map (roundFieldMax0 exerciseName),
    working_weight := r.working_weight.map (roundFieldMax0 exerciseName),
    dropset_weight := r.dropset_weight.map (roundFieldMax0 exerciseName) }

/-- First set of the given type (`sets.find(s => s.type === t)`). -/
def findSetByType (sets : List ExSet) (t : String) : Option ExSet :=
  sets.find? (fun s => s.type = t)

/-- Heavy-weight hard-cap check and rounding (claude.js lines 852-871). -/
def heavyStep (exerciseName : String) (baselineWeight maxAbsoluteIncrease : ℚ)
    (r vr : Recommendation) : Recommendation :=
  match r.heavy_weight with
  | none => vr
  | some heavyWeightNum =>
    let maxIncrease := baselineWeight + maxAbsoluteIncrease
    let maxDecrease := baselineWeight * 0.80
    let capNote := " [Skorygowano z " ++ qToString heavyWeightNum ++ "kg - max +" ++ qToString maxAbsoluteIncrease ++ "kg/tydz]"
    let vr :=
      if heavyWeightNum > maxIncrease then
        { vr with heavy_weight := some maxIncrease, reason := appendReason vr.reason capNote }
      else if heavyWeightNum < maxDecrease then
        { vr with heavy_weight := some maxDecrease, reason := appendReason vr.reason " [Skorygowano - max -20% dla deload]" }
      else { vr with heavy_weight := some heavyWeightNum }
    { vr with heavy_weight := some (roundFieldMax0 exerciseName (vr.heavy_weight.getD 0)) }

/-- `validatedRec.heavy_weight || baselineWeight`: the heavy weight the
backoff check compares against. -/
def heavyRefWeight (vr : Recommendation) (baselineWeight : ℚ) : ℚ :=
  jsTruthyOr vr.heavy_weight baselineWeight

/-- Backoff 80-85 % band check and rounding (claude.js lines 873-891):
out-of-band values are replaced by 82.5 % of the heavy reference. -/
def backoffStep (exerciseName : String) (baselineWeight : ℚ)
    (r vr : Recommendation) : Recommendation :=
  match r.backoff_weight with
  | none => vr
  | some backoffWeightNum =>
    let heavyWeight := heavyRefWeight vr baselineWeight
    let expectedBackoffMin := heavyWeight * 0.80
    let expectedBackoffMax := heavyWeight * 0.85
    let vr :=
      if backoffWeightNum < expectedBackoffMin ∨ backoffWeightNum > expectedBackoffMax then
        { vr with backoff_weight := some (heavyWeight * 0.825), reason := appendReason vr.reason " [Backoff skorygowany do 82.5% heavy]" }
      else { vr with backoff_weight := some backoffWeightNum }
    { vr with backoff_weight := some (roundFieldMax0 exerciseName (vr.backoff_weight.getD 0)) }

/-- Working-weight hard-cap check and rounding (claude.js lines 893-914). -/
def workingStep (exerciseName : String) (workingBaseline maxAbsoluteIncrease : ℚ)
    (r vr : Recommendation) : Recommendation :=
  match r.working_weight with
  | none => vr
  | some workingWeightNum =>
    let maxIncrease := workingBaseline + maxAbsoluteIncrease
    let maxDecrease := workingBaseline * 0.80
    let capNote := " [Skorygowano z " ++ qToString workingWeightNum ++ "kg - max +" ++ qToString maxAbsoluteIncrease ++ "kg/tydz]"
    let vr :=
      if workingWeightNum > maxIncrease then
        { vr with working_weight := some maxIncrease, reason := appendReason vr.reason capNote }
      else if workingWeightNum < maxDecrease then
        { vr with working_weight := some maxDecrease, reason := appendReason vr.reason " [Skorygowano - max -20% dla deload]" }
      else { vr with working_weight := some workingWeightNum }
    { vr with working_weight := some (roundFieldMax0 exerciseName (vr.working_weight.getD 0)) }

/-- Dropset-weight hard-cap check and rounding (claude.js lines 917-938). -/
def dropsetStep (exerciseName : String) (dropsetBaseline maxAbsoluteIncrease : ℚ)
    (r vr : Recommendation) : Recommendation :=
  match r.dropset_weight with
  | none => vr
  | some dropsetWeightNum =>
    let maxIncrease := dropsetBaseline + maxAbsoluteIncrease
    let maxDecrease := dropsetBaseline * 0.80
    let capNote := " [Dropset skorygowany - max +" ++ qToString maxAbsoluteIncrease ++ "kg/tydz]"
    let vr :=
      if dropsetWeightNum > maxIncrease then
        { vr with dropset_weight := some maxIncrease, reason := appendReason vr.reason capNote }
      else if dropsetWeightNum < maxDecrease then
        { vr with dropset_weight := some maxDecrease, reason := appendReason vr.reason " [Dropset skorygowany - max -20% dla deload]" }
      else { vr with dropset_weight := some dropsetWeightNum }
    { vr with dropset_weight := some (roundFieldMax0 exerciseName (vr.dropset_weight.getD 0)) }

/-- The body of the `validateRecommendations` loop for one exercise entry. -/
def validateEntry (exerciseRules : List (String × ExerciseRule)) (day : Option ℕ)
    (currentData : List (String × ExData)) (exerciseName : String)
    (rec0 : Recommendation) : Recommendation :=
  let rec1 := setConfigFilterStep day exerciseName rec0
  match lookupAssoc currentData exerciseName with
  | none => rec1
  | some current =>
    let heavySet := findSetByType current.sets "heavy"
    let workingSet := findSetByType current.sets "working"
    let baselineWeight :=
      jsTruthyOr (heavySet.bind (·.actualWeight))
        (jsTruthyOr (workingSet.bind (·.actualWeight))
          (jsTruthyOr (heavySet.bind (·.targetWeight))
            (jsTruthyOr (workingSet.bind (·.targetWeight)) 0)))
    if baselineWeight = 0 then zeroBaselineValidate exerciseName rec1
    else
      let maxAbsoluteIncrease := getMaxWeeklyIncrease exerciseRules exerciseName
      let vr := rec1
      let vr := heavyStep exerciseName baselineWeight maxAbsoluteIncrease rec1 vr
      let vr := backoffStep exerciseName baselineWeight rec1 vr
      let workingBaseline :=
        jsTruthyOr (workingSet.bind (·.actualWeight))
          (jsTruthyOr (workingSet.bind (·.targetWeight)) baselineWeight)
      let vr := workingStep exerciseName workingBaseline maxAbsoluteIncrease rec1 vr
      let dropsetSet := findSetByType current.sets "dropset"
      let dropsetBaseline :=
        jsTruthyOr (dropsetSet.bind (·.actualWeight))
          (jsTruthyOr (dropsetSet.bind (·.targetWeight)) baselineWeight)
      let vr := dropsetStep exerciseName dropsetBaseline maxAbsoluteIncrease rec1 vr
      vr

/-- `validateRecommendations(recommendations, currentData, day)` from
claude.js. -/
def validateRecommendations (exerciseRules : List (String × ExerciseRule))
    (recommendations : List (String × Recommendation))
    (currentData : List (String × ExData)) (day : Option ℕ) : List (String × Recommendation) :=
  recommendations.map (fun p => (p.1, validateEntry exerciseRules day currentData p.1 p.2))

/-! ## routes/analysis.js: router-level set-config filter and pipeline -/

/-- `filterRecommendationsBySetConfig(recommendations, day)` from
routes/analysis.js: strips disallowed `heavy_weight`, `backoff_weight`
and `dropset_weight` entries (the source has no check for
`working_weight`) and annotates the reason. -/
def filterRecommendationsBySetConfig (recommendations : List (String × Recommendation))
    (day : ℕ) : List (String × Recommendation) :=
  recommendations.map (fun p =>
    match EXERCISE_SET_CONFIG p.1 day with
    | none => p
    | some allowedTypes =>
      let acc := (p.2, ([] : List String))
      let acc := if !(allowedTypes.contains "heavy") ∧ acc.1.heavy_weight.isSome then
          ({ acc.1 with heavy_weight := none },
           acc.2 ++ ["heavy_weight=" ++ qToString (p.2.heavy_weight.getD 0)])
        else acc
      let acc := if !(allowedTypes.contains "backoff") ∧ acc.1.backoff_weight.isSome then
          ({ acc.1 with backoff_weight := none },
           acc.2 ++ ["backoff_weight=" ++ qToString (p.2.backoff_weight.getD 0)])
        else acc
      let acc := if !(allowedTypes.contains "dropset") ∧ acc.1.dropset_weight.isSome then
          ({ acc.1 with dropset_weight := none },
           acc.2 ++ ["dropset_weight=" ++ qToString (p.2.dropset_weight.getD 0)])
        else acc
      let note := " [Filtered: " ++ String.intercalate ", " acc.2 ++ " - not valid for D" ++ toString day ++ "]"
      let filteredRec :=
        if acc.2 ≠ [] then { acc.1 with reason := appendReason acc.1.reason note }
        else acc.1
      (p.1, filteredRec))

/-- The daily analysis pipeline's complete set-type filtering: the
validator (called with the session day inside `analyzeWorkout`) followed
by the router-level filter applied to `analysis.nextWorkout`. -/
def dailyPipelineRecommendations (exerciseRules : List (String × ExerciseRule))
    (recommendations : List (String × Recommendation))
    (currentData : List (String × ExData)) (day : ℕ) : List (String × Recommendation) :=
  filterRecommendationsBySetConfig
    (validateRecommendations exerciseRules recommendations currentData (some day)) day

/-! ## claude.js: fallback recommendation built on analysis failure -/

/-- The fallback reason string (claude.js line 706). -/
def fallbackReason : String := "Fallback - utrzymaj poprzednie ciezary (blad AI)"

/-- One iteration of the fallback loop (claude.js lines 707-715):
`weight = set.actualWeight || set.targetWeight`, assigned to the field
matching the set type when positive. -/
def applyFallbackSet (r : Recommendation) (s : ExSet) : Recommendation :=
  match jsOrOpt s.actualWeight s.targetWeight with
  | none => r
  | some weight =>
    if 0 < weight then
      if s.type = "heavy" then { r with heavy_weight := some weight }
      else if s.type = "backoff" then { r with backoff_weight := some weight }
      else if s.type = "working" then { r with working_weight := some weight }
      else if s.type = "dropset" then { r with dropset_weight := some weight }
      else r
    else r

/-- The per-exercise fallback recommendation. -/
def buildFallbackRec (sets : List ExSet) : Recommendation :=
  sets.foldl applyFallbackSet { reason := some fallbackReason }

/-- `Object.keys(rec).length > 1`: the fallback entry is kept only when
some weight field was assigned beside `reason`. -/
def recHasAnyWeight (r : Recommendation) : Bool :=
  r.heavy_weight.isSome || r.backoff_weight.isSome ||
  r.working_weight.isSome || r.dropset_weight.isSome

/-- `fallbackNextWorkout` (claude.js lines 704-719): the recommendation
map returned when the model call or the response parse fails, one entry
per session exercise whose fallback picked up at least one weight. -/
def buildFallbackNextWorkout : List (String × ExData) → List (String × Recommendation)
  | [] => []
  | p :: rest =>
    let r := buildFallbackRec p.2.sets
    if recHasAnyWeight r then (p.1, r) :: buildFallbackNextWorkout rest
    else buildFallbackNextWorkout rest

/-- The property that a weight value appears verbatim among the actual or
target weights of the named exercise's sets in the session data. -/
def weightFromSession (exerciseData : List (String × ExData)) (exerciseName : String)
    (w : ℚ) : Prop :=
  ∃ d s, (exerciseName, d) ∈ exerciseData ∧ s ∈ d.sets ∧
    (s.actualWeight = some w ∨ s.targetWeight = some w)

/-! ## routes/analysis.js: persistence of progression rows -/

/-- One database write issued while saving analysis results. -/
inductive DbWrite
  | updateAnalysis (sessionId : ℕ)
  | setWeeklyAnalysis (sessionId : ℕ)
  | deleteProgression (exerciseId week day : ℕ)
  | insertProgression (exerciseId week day : ℕ) (setType : String) (weight : ℚ)
      (reason : Option String)
deriving DecidableEq, Repr

/-- The weight bundle passed to `saveProgressionWeights`. -/
structure Weights where
  heavy : Option ℚ := none
  backoff : Option ℚ := none
  working : Option ℚ := none
  dropset : Option ℚ := none
deriving DecidableEq, Repr

/-- The weights of a recommendation entry as bundled at the save sites. -/
def weightsOfRec (r : Recommendation) : Weights :=
  ⟨r.heavy_weight, r.backoff_weight, r.working_weight, r.dropset_weight⟩

/-- `hasAnyValue` at both save sites. -/
def hasAnyValue (r : Recommendation) : Bool := recHasAnyWeight r

/-- `saveProgressionWeights(exerciseId, week, day, weights, reason)`:
delete the old rows for the key, then insert one row per present field. -/
def saveProgressionWeights (exerciseId week day : ℕ) (w : Weights)
    (reason : Option String) : List DbWrite :=
  [DbWrite.deleteProgression exerciseId week day] ++
  (match w.heavy with
   | some v => [DbWrite.insertProgression exerciseId week day "heavy" v reason]
   | none => []) ++
  (match w.backoff with
   | some v => [DbWrite.insertProgression exerciseId week day "backoff" v reason]
   | none => []) ++
  (match w.working with
   | some v => [DbWrite.insertProgression exerciseId week day "working" v reason]
   | none => []) ++
  (match w.dropset with
   | some v => [DbWrite.insertProgression exerciseId week day "dropset" v reason]
   | none => [])

/-- `REPEATING_EXERCISES` from routes/analysis.js. -/
def REPEATING_EXERCISES (exerciseId : ℕ) : List ℕ :=
  if exerciseId = 1 then [1, 3]
  else if exerciseId = 7 then [1, 2, 3]
  else []

/-- `getOtherDaysForExercise(exerciseId, currentDay)`. -/
def getOtherDaysForExercise (exerciseId currentDay : ℕ) : List ℕ :=
  (REPEATING_EXERCISES exerciseId).filter (· ≠ currentDay)

/-- Static database context consulted while saving: the exercise
registry (name to id) and the set of (week, day) pairs with a finished
session. -/
structure DbContext where
  exercises : List (String × ℕ)
  finished : List (ℕ × ℕ)
deriving Repr

/-- The writes of the `saveDailyResultsAtomic` transaction
(routes/analysis.js lines 172-250): update the session's analysis blob,
write the next-week same-day progression for each recommended exercise,
and forward the recommendation to this week's other, not-yet-finished
days of repeating exercises. -/
def dailyBatch (ctx : DbContext) (sessionId week day programWeeks : ℕ)
    (nextWorkout : Option (List (String × Recommendation))) : List DbWrite :=
  [DbWrite.updateAnalysis sessionId] ++
  (match nextWorkout with
   | none => []
   | some entries =>
     let nextWeek := if week < programWeeks then week + 1 else 1
     entries.flatMap (fun p =>
       match lookupAssoc ctx.exercises p.1 with
       | none => []
       | some exerciseId =>
         if hasAnyValue p.2 then
           let weights := weightsOfRec p.2
           saveProgressionWeights exerciseId nextWeek day weights p.2.reason ++
           (getOtherDaysForExercise exerciseId day).flatMap (fun otherDay =>
             if (week, otherDay) ∈ ctx.finished then []
             else
               let allowedTypes := (EXERCISE_SET_CONFIG p.1 otherDay).getD ["working"]
               let filteredWeights : Weights :=
                 ⟨if allowedTypes.contains "heavy" then weights.heavy else none,
                  if allowedTypes.contains "backoff" then weights.backoff else none,
                  if allowedTypes.contains "working" then weights.working else none,
                  if allowedTypes.contains "dropset" then weights.dropset else none⟩
               let sameWeekReason := (p.2.reason.getD "") ++ " [Same-week update from D" ++ toString day ++ "]"
               saveProgressionWeights exerciseId week otherDay filteredWeights (some sameWeekReason))
         else []))

/-- The writes of the `saveWeeklyResultsAtomic` transaction
(routes/analysis.js lines 343-398): store the weekly analysis into the
session blob and write each day's next-week progression rows. -/
def weeklyBatch (ctx : DbContext) (sessionId week programWeeks : ℕ)
    (nextWeekRecommendations : List (ℕ × List (String × Recommendation))) : List DbWrite :=
  [DbWrite.setWeeklyAnalysis sessionId] ++
  (let nextWeekNum := if week < programWeeks then week + 1 else 1
   nextWeekRecommendations.flatMap (fun dayEntry =>
     dayEntry.2.flatMap (fun p =>
       match lookupAssoc ctx.exercises p.1 with
       | none => []
       | some exerciseId =>
         if hasAnyValue p.2 then
           saveProgressionWeights exerciseId nextWeekNum dayEntry.1 (weightsOfRec p.2)
             (some (jsStrOr p.2.reason "Weekly analysis"))
         else [])))

/-- The sequence of transactions committed by the analysis route for one
session-finish event: the daily transaction always, and on day 3 (when
the weekly analysis was produced) a second, separate weekly transaction. -/
def commitBatches (ctx : DbContext) (sessionId week day programWeeks : ℕ)
    (nextWorkout : Option (List (String × Recommendation)))
    (weekly : Option (List (ℕ × List (String × Recommendation)))) : List (List DbWrite) :=
  [dailyBatch ctx sessionId week day programWeeks nextWorkout] ++
  (if day = 3 then
    match weekly with
    | some recs => [weeklyBatch ctx sessionId week programWeeks recs]
    | none => []
  else [])

/-- The database states observable around the transaction boundaries:
each transaction applies atomically, so exactly the prefixes of the
batch list are visible (a crash between transactions leaves such a
prefix committed). -/
def observableStates (batches : List (List DbWrite)) : List (List DbWrite) :=
  (List.range (batches.length + 1)).map (fun i => (batches.take i).flatten)

/-! ## Helper lemmas -/

theorem jsRound_intCast (k : ℤ) : jsRound (k : ℚ) = k := by
  unfold jsRound
  rw [add_comm, Int.floor_add_int]
  norm_num

theorem jsRound_nonneg (q : ℚ) (h : 0 ≤ q) : 0 ≤ jsRound q := by
  unfold jsRound
  rw [Int.le_floor]
  push_cast
  linarith

theorem roundWeight_nonneg (w : ℚ) (e : String) (h : 0 ≤ w) : 0 ≤ roundWeight w e := by
  unfold roundWeight
  split_ifs
  · exact le_trans (by norm_num) (le_max_right _ 4)
  · have h10 := jsRound_nonneg (w / 10) (by positivity)
    have : (0 : ℚ) ≤ ((jsRound (w / 10) : ℤ) : ℚ) := by exact_mod_cast h10
    linarith
  · have h5 := jsRound_nonneg (w / 5) (by positivity)
    have : (0 : ℚ) ≤ ((jsRound (w / 5) : ℤ) : ℚ) := by exact_mod_cast h5
    linarith

theorem roundFieldMax0_of_nonneg (n : String) (v : ℚ) (h : 0 ≤ v) :
    roundFieldMax0 n v = roundWeightByExercise v n :=
  max_eq_right (roundWeight_nonneg v (getEquipmentType n) h)

/-! ## C9: idempotence of rounding -/

/-- C9.  For every equipment class, rounding a weight already on a valid
increment of that class (dumbbell: whole units from the floor of 4 up;
barbell: multiples of 10; machine: multiples of 5) returns it unchanged. -/
theorem rounding_idempotent_on_valid_increments :
    (∀ k : ℤ, 4 ≤ k → roundWeight (k : ℚ) "dumbbell" = (k : ℚ)) ∧
    (∀ k : ℤ, roundWeight ((k : ℚ) * 10) "barbell" = (k : ℚ) * 10) ∧
    (∀ k : ℤ, roundWeight ((k : ℚ) * 5) "machine" = (k : ℚ) * 5) := by
  refine ⟨fun k hk => ?_, fun k => ?_, fun k => ?_⟩
  · unfold roundWeight
    rw [if_pos rfl, jsRound_intCast]
    exact max_eq_left (by exact_mod_cast hk)
  · unfold roundWeight
    rw [if_neg (by decide), if_pos rfl]
    rw [mul_div_cancel_right₀ _ (by norm_num : (10 : ℚ) ≠ 0), jsRound_intCast]
  · unfold roundWeight
    rw [if_neg (by decide), if_neg (by decide)]
    rw [mul_div_cancel_right₀ _ (by norm_num : (5 : ℚ) ≠ 0), jsRound_intCast]

/-- Witness for C9 at concrete weights 5, 30 and 35. -/
theorem rounding_idempotent_witness :
    roundWeight ((5 : ℤ) : ℚ) "dumbbell" = ((5 : ℤ) : ℚ) ∧
    roundWeight (((3 : ℤ) : ℚ) * 10) "barbell" = ((3 : ℤ) : ℚ) * 10 ∧
    roundWeight (((7 : ℤ) : ℚ) * 5) "machine" = ((7 : ℤ) : ℚ) * 5 :=
  ⟨rounding_idempotent_on_valid_increments.1 5 (by norm_num),
   rounding_idempotent_on_valid_increments.2.1 3,
   rounding_idempotent_on_valid_increments.2.2 7⟩

/-! ## C8: vacuous target-hit rate -/

/-- C8.  When no set log has both target and actual reps known (the empty
collection included), the target-hit rate is exactly 100. -/
theorem target_hit_rate_vacuous (setLogs : List SetLog)
    (h : ∀ log ∈ setLogs, log.target_reps = none ∨ log.actual_reps = none) :
    calculateTargetHitRate setLogs = 100 := by
  unfold calculateTargetHitRate
  have hfil : setLogs.filter (fun log => log.target_reps.isSome && log.actual_reps.isSome) = [] := by
    rw [List.filter_eq_nil_iff]
    intro a ha
    rcases h a ha with h1 | h1 <;> simp [h1]
  simp [hfil]

/-- Witness for C8: the empty collection and a log without targets. -/
theorem target_hit_rate_vacuous_witness :
    calculateTargetHitRate [] = 100 ∧
    calculateTargetHitRate [{ set_type := "working", actual_reps := some 10 }] = 100 :=
  ⟨target_hit_rate_vacuous [] (by simp),
   target_hit_rate_vacuous _ (by simp)⟩

/-! ## C1: whitelist filtering is not total (working weights leak) -/

/-- A day-1 recommendation for Leg Press whose only weight is a working
weight; Leg Press has `["heavy", "backoff"]` on day 1. -/
def c1Recommendations : List (String × Recommendation) :=
  [("Leg Press", { working_weight := some 50, reason := some "" })]

/-- C1 (refuted by the code).  A `working_weight` whose set type is absent
from the day's config survives the whole filtering pipeline: inside
`validateRecommendations` the deletion lands on `filteredRec` and is then
lost by `Object.assign(rec, filteredRec)`, and the router-level
`filterRecommendationsBySetConfig` has no `working` check at all, so the
final output for Leg Press on day 1 still carries `working_weight = 50`
even though the reason annotation claims the field was filtered. -/
theorem whitelist_filter_leaks_working_weight :
    EXERCISE_SET_CONFIG "Leg Press" 1 = some ["heavy", "backoff"] ∧
    (dailyPipelineRecommendations [] c1Recommendations [] 1).map
      (fun p => (p.1, p.2.working_weight)) = [("Leg Press", some 50)] := by decide

/-! ## C7: stagnation-detection scenario -/

/-- Six history rows: Leg Press heavy weights 100, 99, 101 over weeks
1-3 (range 2, under 2 % of the 101 maximum), plus three steadily
increasing T-Bar Row working rows that trigger nothing. -/
def stagnationHistory6 : List SetLog :=
  [{ exercise_name := "Leg Press", set_type := "heavy", week := 1, actual_weight := some 100 },
   { exercise_name := "Leg Press", set_type := "heavy", week := 2, actual_weight := some 99 },
   { exercise_name := "Leg Press", set_type := "heavy", week := 3, actual_weight := some 101 },
   { exercise_name := "T-Bar Row", set_type := "working", week := 1, actual_weight := some 50 },
   { exercise_name := "T-Bar Row", set_type := "working", week := 2, actual_weight := some 60 },
   { exercise_name := "T-Bar Row", set_type := "working", week := 3, actual_weight := some 70 }]

/-- C7.  On the stagnation scenario (three consecutive weekly heavy
weights 100, 99, 101 and six history rows, no other trigger) the light
session is suggested with severity "moderate"; with only five rows the
check reports insufficient data and no suggestion. -/
theorem light_session_stagnation_scenario :
    (shouldSuggestLightSession stagnationHistory6 4).suggest = true ∧
    (shouldSuggestLightSession stagnationHistory6 4).severity = "moderate" ∧
    shouldSuggestLightSession (stagnationHistory6.take 5) 4 =
      ⟨false, "Niewystarczajace dane historyczne", "none"⟩ := by
  have hg : exerciseProgressGroups stagnationHistory6 =
      [(("Leg Press", "heavy"), [⟨1, some 100⟩, ⟨2, some 99⟩, ⟨3, some 101⟩]),
       (("T-Bar Row", "working"), [⟨1, some 50⟩, ⟨2, some 60⟩, ⟨3, some 70⟩])] := by decide
  refine ⟨?_, ?_, ?_⟩
  · norm_num [shouldSuggestLightSession, hg, stagnationHistory6, sortByWeekDesc,
      insertByWeekDesc, maxOfWeights, minOfWeights, extractRecurringIssues,
      List.getLast?, List.head?, List.take, List.foldl]
  · norm_num [shouldSuggestLightSession, hg, stagnationHistory6, sortByWeekDesc,
      insertByWeekDesc, maxOfWeights, minOfWeights, extractRecurringIssues,
      List.getLast?, List.head?, List.take, List.foldl]
  · decide

/-! ## C6: weekly volume trend thresholds are strict -/

/-- Two weeks of logs whose latest tonnage is exactly 105 % of the
previous week's. -/
def c6BoundaryLogs : List SetLog :=
  [{ week := 1, actual_weight := some 100, actual_reps := some 1 },
   { week := 2, actual_weight := some 105, actual_reps := some 1 }]

/-- Counterexample to C6 as stated: with the latest week at exactly
+5 % over the previous week ("at least +5 %"), the code classifies the
trend as "stabilny", not as increasing. -/
theorem weekly_volume_boundary_counterexample :
    weekTonnage c6BoundaryLogs 2 = weekTonnage c6BoundaryLogs 1 * 1.05 ∧
    sortedDistinctWeeksDesc c6BoundaryLogs = [2, 1] ∧
    (calculateWeeklyVolume c6BoundaryLogs).trend = "stabilny" := by
  refine ⟨?_, by decide, ?_⟩
  · norm_num [weekTonnage, c6BoundaryLogs]
  · norm_num [calculateWeeklyVolume, c6BoundaryLogs, weekTonnage, weekSets,
      sortedDistinctWeeksDesc, sortDescNat, insertDescNat]

/-! ## C4: daily and weekly progression writes are two separate units -/

/-- Database context for the C4 scenario: one exercise, all three
sessions of week 1 finished. -/
def c4ctx : DbContext := ⟨[("Leg Press", 1)], [(1, 1), (1, 2), (1, 3)]⟩

/-- Daily recommendation produced after the week-1 day-3 session. -/
def c4daily : List (String × Recommendation) :=
  [("Leg Press", { working_weight := some 100, reason := some "d" })]

/-- Weekly recommendation for day 3 of the next week. -/
def c4weekly : List (ℕ × List (String × Recommendation)) :=
  [(3, [("Leg Press", { working_weight := some 102, reason := some "w" })])]

/-- The transactions committed for the C4 scenario (session 9, week 1,
day 3, 8-week program). -/
def c4batches : List (List DbWrite) :=
  commitBatches c4ctx 9 1 3 8 (some c4daily) (some c4weekly)

/-- The state committed after the first (daily) transaction only. -/
def c4midState : List DbWrite := (c4batches.take 1).flatten

/-- Counterexample to C4 as stated: after a day-3 session the daily and
weekly progression writes go through two separate transactions, so the
state in which the daily progression row is saved but the weekly
analysis progression row is absent is observable (a crash between the
two transactions leaves exactly this state), even though the weekly row
is part of the same session-finish analysis. -/
theorem progression_partial_state_observable :
    c4midState ∈ observableStates c4batches ∧
    DbWrite.insertProgression 1 2 3 "working" 100 (some "d") ∈ c4midState ∧
    DbWrite.insertProgression 1 2 3 "working" 102 (some "w") ∉ c4midState ∧
    DbWrite.insertProgression 1 2 3 "working" 102 (some "w") ∈ c4batches.flatten := by decide

/-- C4 (amended).  For a day-3 session whose weekly analysis succeeded,
the commit sequence is exactly two atomic units: first the daily
transaction (analysis blob, next-week same-day rows and same-week
lookahead rows together), then the weekly transaction (weekly analysis
and its progression rows together); the observable states are precisely
nothing, the daily unit, and both units. -/
theorem progression_commit_two_units (ctx : DbContext) (sid week day pw : ℕ)
    (nw : Option (List (String × Recommendation)))
    (wk : List (ℕ × List (String × Recommendation))) (hday : day = 3) :
    observableStates (commitBatches ctx sid week day pw nw (some wk)) =
      [[], dailyBatch ctx sid week day pw nw,
       dailyBatch ctx sid week day pw nw ++ weeklyBatch ctx sid week pw wk] := by
  subst hday
  simp [observableStates, commitBatches, List.range_succ]

/-- Witness for C4's amended claim at the concrete scenario. -/
theorem progression_commit_two_units_witness :
    observableStates c4batches =
      [[], dailyBatch c4ctx 9 1 3 8 (some c4daily),
       dailyBatch c4ctx 9 1 3 8 (some c4daily) ++ weeklyBatch c4ctx 9 1 8 c4weekly] :=
  progression_commit_two_units c4ctx 9 1 3 8 (some c4daily) c4weekly rfl

/-- C6 (amended).  With at least two distinct weeks of data and
nonnegative previous-week tonnage, the trend is "rosnacy (+5%)" exactly
when the latest week's tonnage is strictly more than 105 % of the
previous week's, "malejacy (-5%)" exactly when strictly less than 95 %,
and "stabilny" otherwise (the ±5 % boundaries themselves are stable);
the empty history and a single-week history yield the no-data sentinels. -/
theorem weekly_volume_trend_strict (logs : List SetLog) (w1 w2 : ℕ) (ws : List ℕ)
    (hsort : sortedDistinctWeeksDesc logs = w1 :: w2 :: ws)
    (hprev : 0 ≤ weekTonnage logs w2) :
    (((calculateWeeklyVolume logs).trend = "rosnacy (+5%)" ↔
        weekTonnage logs w2 * 1.05 < weekTonnage logs w1) ∧
     ((calculateWeeklyVolume logs).trend = "malejacy (-5%)" ↔
        weekTonnage logs w1 < weekTonnage logs w2 * 0.95) ∧
     ((calculateWeeklyVolume logs).trend = "stabilny" ↔
        (weekTonnage logs w2 * 0.95 ≤ weekTonnage logs w1 ∧
         weekTonnage logs w1 ≤ weekTonnage logs w2 * 1.05))) ∧
    (calculateWeeklyVolume []).trend = "brak danych" ∧
    (∀ logs' w, sortedDistinctWeeksDesc logs' = [w] →
      (calculateWeeklyVolume logs').trend = "niewystarczajace dane") := by
  have hband : weekTonnage logs w2 * 0.95 ≤ weekTonnage logs w2 * 1.05 :=
    mul_le_mul_of_nonneg_left (by norm_num) hprev
  refine ⟨?_, rfl, ?_⟩
  · have hne : logs ≠ [] := by
      intro h
      subst h
      simp [sortedDistinctWeeksDesc, sortDescNat] at hsort
    have hlen : ¬ logs.length = 0 := by simpa [List.length_eq_zero] using hne
    unfold calculateWeeklyVolume
    rw [if_neg hlen, hsort]
    dsimp only
    split_ifs with h1 h2
    · exact ⟨iff_of_true rfl h1,
        iff_of_false (by simp) (by push_neg; linarith),
        iff_of_false (by simp) (by rintro ⟨h3, h4⟩; linarith)⟩
    · exact ⟨iff_of_false (by simp) h1,
        iff_of_true rfl h2,
        iff_of_false (by simp) (by rintro ⟨h3, h4⟩; linarith)⟩
    · exact ⟨iff_of_false (by simp) h1,
        iff_of_false (by simp) h2,
        iff_of_true rfl ⟨not_lt.mp h2, not_lt.mp h1⟩⟩
  · intro logs' w hsort'
    have hne : logs' ≠ [] := by
      intro h
      subst h
      simp [sortedDistinctWeeksDesc, sortDescNat] at hsort'
    have hlen : ¬ logs'.length = 0 := by simpa [List.length_eq_zero] using hne
    unfold calculateWeeklyVolume
    rw [if_neg hlen, hsort']

/-- Two weeks of logs whose latest tonnage is 106 % of the previous
week's. -/
def c6WitnessLogs : List SetLog :=
  [{ week := 1, actual_weight := some 100, actual_reps := some 1 },
   { week := 2, actual_weight := some 106, actual_reps := some 1 }]

/-- Witness for C6's amended claim: +6 % classifies as increasing. -/
theorem weekly_volume_trend_witness :
    (calculateWeeklyVolume c6WitnessLogs).trend = "rosnacy (+5%)" :=
  ((weekly_volume_trend_strict c6WitnessLogs 2 1 [] (by decide)
      (by norm_num [weekTonnage, c6WitnessLogs])).1.1).mpr
    (by norm_num [weekTonnage, c6WitnessLogs])

/-! ## C10: entries without current-session data pass through unvalidated -/

theorem orElse_of_or (x y : Option ℚ) (h : x = y ∨ x = none) :
    x.orElse (fun _ => y) = y := by
  rcases h with h | h
  · rw [h]; cases y <;> rfl
  · rw [h]; rfl

theorem filterFields_heavy (allowedTypes : List String) (r : Recommendation) :
    (filterFieldsByAllowed allowedTypes r).1.heavy_weight = r.heavy_weight ∨
    (filterFieldsByAllowed allowedTypes r).1.heavy_weight = none := by
  unfold filterFieldsByAllowed
  dsimp only
  split_ifs <;> simp

theorem filterFields_backoff (allowedTypes : List String) (r : Recommendation) :
    (filterFieldsByAllowed allowedTypes r).1.backoff_weight = r.backoff_weight ∨
    (filterFieldsByAllowed allowedTypes r).1.backoff_weight = none := by
  unfold filterFieldsByAllowed
  dsimp only
  split_ifs <;> simp

theorem filterFields_working (allowedTypes : List String) (r : Recommendation) :
    (filterFieldsByAllowed allowedTypes r).1.working_weight = r.working_weight ∨
    (filterFieldsByAllowed allowedTypes r).1.working_weight = none := by
  unfold filterFieldsByAllowed
  dsimp only
  split_ifs <;> simp

theorem filterFields_dropset (allowedTypes : List String) (r : Recommendation) :
    (filterFieldsByAllowed allowedTypes r).1.dropset_weight = r.dropset_weight ∨
    (filterFieldsByAllowed allowedTypes r).1.dropset_weight = none := by
  unfold filterFieldsByAllowed
  dsimp only
  split_ifs <;> simp

theorem objectAssignRec_weights (r fr : Recommendation)
    (hh : fr.heavy_weight = r.heavy_weight ∨ fr.heavy_weight = none)
    (hb : fr.backoff_weight = r.backoff_weight ∨ fr.backoff_weight = none)
    (hw : fr.working_weight = r.working_weight ∨ fr.working_weight = none)
    (hd : fr.dropset_weight = r.dropset_weight ∨ fr.dropset_weight = none) :
    (objectAssignRec r fr).heavy_weight = r.heavy_weight ∧
    (objectAssignRec r fr).backoff_weight = r.backoff_weight ∧
    (objectAssignRec r fr).working_weight = r.working_weight ∧
    (objectAssignRec r fr).dropset_weight = r.dropset_weight :=
  ⟨orElse_of_or _ _ hh, orElse_of_or _ _ hb, orElse_of_or _ _ hw, orElse_of_or _ _ hd⟩

/-- The whitelist-filter block never changes the weight fields of the
recommendation it returns: the deletions land on the discarded
`filteredRec` copy and `Object.assign` cannot transport a deletion. -/
theorem setConfigFilterStep_preserves_weights (day : Option ℕ) (n : String) (r : Recommendation) :
    (setConfigFilterStep day n r).heavy_weight = r.heavy_weight ∧
    (setConfigFilterStep day n r).backoff_weight = r.backoff_weight ∧
    (setConfigFilterStep day n r).working_weight = r.working_weight ∧
    (setConfigFilterStep day n r).dropset_weight = r.dropset_weight := by
  unfold setConfigFilterStep
  cases day with
  | none => exact ⟨rfl, rfl, rfl, rfl⟩
  | some d =>
    dsimp only
    cases hc : EXERCISE_SET_CONFIG n d with
    | none => exact ⟨rfl, rfl, rfl, rfl⟩
    | some allowed =>
      dsimp only
      refine objectAssignRec_weights r _ ?_ ?_ ?_ ?_
      · have h := filterFields_heavy allowed r
        split_ifs <;> simpa using h
      · have h := filterFields_backoff allowed r
        split_ifs <;> simpa using h
      · have h := filterFields_working allowed r
        split_ifs <;> simpa using h
      · have h := filterFields_dropset allowed r
        split_ifs <;> simpa using h

/-- C10.  A recommendation entry whose exercise name has no entry in the
current session's data is returned with all four weight fields exactly
as received: no cap or floor check, no backoff correction, no rounding
and no non-negativity clamp is applied to it. -/
theorem unknown_exercise_passthrough (exerciseRules : List (String × ExerciseRule))
    (day : Option ℕ) (currentData : List (String × ExData)) (n : String)
    (r : Recommendation) (h : lookupAssoc currentData n = none) :
    (validateEntry exerciseRules day currentData n r).heavy_weight = r.heavy_weight ∧
    (validateEntry exerciseRules day currentData n r).backoff_weight = r.backoff_weight ∧
    (validateEntry exerciseRules day currentData n r).working_weight = r.working_weight ∧
    (validateEntry exerciseRules day currentData n r).dropset_weight = r.dropset_weight := by
  unfold validateEntry
  rw [h]
  exact setConfigFilterStep_preserves_weights day n r

/-- Witness for C10: an exercise absent from the session keeps an
off-increment heavy weight of 999 untouched. -/
theorem unknown_exercise_passthrough_witness :
    (validateEntry [] (some 1) [] "Mystery Exercise" { heavy_weight := some 999 }).heavy_weight =
      some 999 ∧
    (validateEntry [] (some 1) [] "Mystery Exercise" { heavy_weight := some 999 }).backoff_weight =
      none ∧
    (validateEntry [] (some 1) [] "Mystery Exercise" { heavy_weight := some 999 }).working_weight =
      none ∧
    (validateEntry [] (some 1) [] "Mystery Exercise" { heavy_weight := some 999 }).dropset_weight =
      none :=
  unknown_exercise_passthrough [] (some 1) [] "Mystery Exercise" { heavy_weight := some 999 } rfl

/-! ## C2: hard-cap clamp correctness for heavy and working weights -/

theorem heavyStep_cap (n : String) (B C V : ℚ) (r vr : Recommendation)
    (hr : r.heavy_weight = some V) (h : V > B + C) :
    (heavyStep n B C r vr).heavy_weight = some (roundFieldMax0 n (B + C)) := by
  unfold heavyStep
  rw [hr]
  dsimp only
  rw [if_pos h]
  rfl

theorem heavyStep_floor (n : String) (B C V : ℚ) (r vr : Recommendation)
    (hr : r.heavy_weight = some V) (hng : ¬ V > B + C) (h : V < B * 0.80) :
    (heavyStep n B C r vr).heavy_weight = some (roundFieldMax0 n (B * 0.80)) := by
  unfold heavyStep
  rw [hr]
  dsimp only
  rw [if_neg hng, if_pos h]
  rfl

theorem heavyStep_pass (n : String) (B C V : ℚ) (r vr : Recommendation)
    (hr : r.heavy_weight = some V) (hng : ¬ V > B + C) (hnl : ¬ V < B * 0.80) :
    (heavyStep n B C r vr).heavy_weight = some (roundFieldMax0 n V) := by
  unfold heavyStep
  rw [hr]
  dsimp only
  rw [if_neg hng, if_neg hnl]
  rfl

theorem workingStep_cap (n : String) (B C V : ℚ) (r vr : Recommendation)
    (hr : r.working_weight = some V) (h : V > B + C) :
    (workingStep n B C r vr).working_weight = some (roundFieldMax0 n (B + C)) := by
  unfold workingStep
  rw [hr]
  dsimp only
  rw [if_pos h]
  rfl

theorem workingStep_floor (n : String) (B C V : ℚ) (r vr : Recommendation)
    (hr : r.working_weight = some V) (hng : ¬ V > B + C) (h : V < B * 0.80) :
    (workingStep n B C r vr).working_weight = some (roundFieldMax0 n (B * 0.80)) := by
  unfold workingStep
  rw [hr]
  dsimp only
  rw [if_neg hng, if_pos h]
  rfl

theorem workingStep_pass (n : String) (B C V : ℚ) (r vr : Recommendation)
    (hr : r.working_weight = some V) (hng : ¬ V > B + C) (hnl : ¬ V < B * 0.80) :
    (workingStep n B C r vr).working_weight = some (roundFieldMax0 n V) := by
  unfold workingStep
  rw [hr]
  dsimp only
  rw [if_neg hng, if_neg hnl]
  rfl

/-- Current-session data with a single set of the given type whose
actual weight is the baseline. -/
def soloSetData (n t : String) (B : ℚ) : List (String × ExData) :=
  [(n, { sets := [{ type := t, actualWeight := some B }] })]

theorem validateEntry_soloHeavy (exerciseRules : List (String × ExerciseRule))
    (n : String) (B V : ℚ) (hB : ¬ B = 0) :
    validateEntry exerciseRules none (soloSetData n "heavy" B) n { heavy_weight := some V } =
      heavyStep n B (getMaxWeeklyIncrease exerciseRules n)
        { heavy_weight := some V } { heavy_weight := some V } := by
  simp [validateEntry, soloSetData, setConfigFilterStep, lookupAssoc, findSetByType,
    List.find?, jsTruthyOr, hB, backoffStep, workingStep, dropsetStep]

theorem validateEntry_soloWorking (exerciseRules : List (String × ExerciseRule))
    (n : String) (B V : ℚ) (hB : ¬ B = 0) :
    validateEntry exerciseRules none (soloSetData n "working" B) n { working_weight := some V } =
      workingStep n B (getMaxWeeklyIncrease exerciseRules n)
        { working_weight := some V } { working_weight := some V } := by
  simp [validateEntry, soloSetData, setConfigFilterStep, lookupAssoc, findSetByType,
    List.find?, jsTruthyOr, hB, backoffStep, heavyStep, dropsetStep]

/-- C2.  For a session baseline B > 0 and the per-exercise weekly cap C
resolved by `getMaxWeeklyIncrease`, a heavy or working candidate above
B + C validates to exactly B + C, one below 0.8·B validates to exactly
0.8·B, and one inside [0.8·B, B + C] passes through unchanged; the
validator then applies only the final rounding step to that exact value. -/
theorem clamp_correctness_heavy_working (exerciseRules : List (String × ExerciseRule))
    (n : String) (B V : ℚ) (hB : 0 < B) (hC : 0 ≤ getMaxWeeklyIncrease exerciseRules n) :
    (V > B + getMaxWeeklyIncrease exerciseRules n →
      (validateEntry exerciseRules none (soloSetData n "heavy" B) n
          { heavy_weight := some V }).heavy_weight =
        some (roundFieldMax0 n (B + getMaxWeeklyIncrease exerciseRules n)) ∧
      (validateEntry exerciseRules none (soloSetData n "working" B) n
          { working_weight := some V }).working_weight =
        some (roundFieldMax0 n (B + getMaxWeeklyIncrease exerciseRules n))) ∧
    (V < B * 0.80 →
      (validateEntry exerciseRules none (soloSetData n "heavy" B) n
          { heavy_weight := some V }).heavy_weight =
        some (roundFieldMax0 n (B * 0.80)) ∧
      (validateEntry exerciseRules none (soloSetData n "working" B) n
          { working_weight := some V }).working_weight =
        some (roundFieldMax0 n (B * 0.80))) ∧
    (B * 0.80 ≤ V → V ≤ B + getMaxWeeklyIncrease exerciseRules n →
      (validateEntry exerciseRules none (soloSetData n "heavy" B) n
          { heavy_weight := some V }).heavy_weight =
        some (roundFieldMax0 n V) ∧
      (validateEntry exerciseRules none (soloSetData n "working" B) n
          { working_weight := some V }).working_weight =
        some (roundFieldMax0 n V)) := by
  have hB0 : ¬ B = 0 := ne_of_gt hB
  rw [validateEntry_soloHeavy exerciseRules n B V hB0,
    validateEntry_soloWorking exerciseRules n B V hB0]
  refine ⟨fun h => ⟨?_, ?_⟩, fun h => ⟨?_, ?_⟩, fun h1 h2 => ⟨?_, ?_⟩⟩
  · exact heavyStep_cap n B _ V _ _ rfl h
  · exact workingStep_cap n B _ V _ _ rfl h
  · exact heavyStep_floor n B _ V _ _ rfl (by push_neg; linarith) h
  · exact workingStep_floor n B _ V _ _ rfl (by push_neg; linarith) h
  · exact heavyStep_pass n B _ V _ _ rfl (by push_neg; linarith) (by push_neg; linarith)
  · exact workingStep_pass n B _ V _ _ rfl (by push_neg; linarith) (by push_neg; linarith)

/-- Witness for C2: the compound-cap scenario, baseline 100, cap +5,
candidate 112, validated to 105 before rounding (and 105 after machine
rounding). -/
theorem clamp_correctness_witness :
    (validateEntry [] none (soloSetData "Leg Press" "heavy" 100) "Leg Press"
        { heavy_weight := some 112 }).heavy_weight =
      some (roundFieldMax0 "Leg Press" (100 + getMaxWeeklyIncrease [] "Leg Press")) ∧
    (validateEntry [] none (soloSetData "Leg Press" "working" 100) "Leg Press"
        { working_weight := some 112 }).working_weight =
      some (roundFieldMax0 "Leg Press" (100 + getMaxWeeklyIncrease [] "Leg Press")) :=
  (clamp_correctness_heavy_working [] "Leg Press" 100 112 (by norm_num)
      (by norm_num [getMaxWeeklyIncrease, lookupAssoc])).1
    (by norm_num [getMaxWeeklyIncrease, lookupAssoc])

/-! ## C3: backoff band correction -/

/-- C3.  With H the heavy reference the code uses (the already-validated
heavy weight when truthy, else the baseline) and H > 0, a backoff
candidate outside [0.80·H, 0.85·H] resolves to exactly the rounding of
0.825·H — the band midpoint, not the nearer edge — while a candidate
inside the band passes through unchanged into the rounding step. -/
theorem backoff_band_correction (n : String) (B H V : ℚ) (r vr : Recommendation)
    (hr : r.backoff_weight = some V) (hH : heavyRefWeight vr B = H) (hpos : 0 < H) :
    ((V < H * 0.80 ∨ V > H * 0.85) →
      (backoffStep n B r vr).backoff_weight = some (roundWeightByExercise (H * 0.825) n)) ∧
    (H * 0.80 ≤ V → V ≤ H * 0.85 →
      (backoffStep n B r vr).backoff_weight = some (roundWeightByExercise V n)) := by
  unfold backoffStep
  rw [hr]
  dsimp only
  rw [hH]
  constructor
  · intro h
    rw [if_pos h]
    have h825 : (0 : ℚ) ≤ H * 0.825 := mul_nonneg hpos.le (by norm_num)
    show some (roundFieldMax0 n (H * 0.825)) = some (roundWeightByExercise (H * 0.825) n)
    rw [roundFieldMax0_of_nonneg n _ h825]
  · intro h1 h2
    rw [if_neg (by push_neg; exact ⟨h1, h2⟩)]
    have h80 : (0 : ℚ) ≤ H * 0.80 := mul_nonneg hpos.le (by norm_num)
    show some (roundFieldMax0 n V) = some (roundWeightByExercise V n)
    rw [roundFieldMax0_of_nonneg n V (by linarith)]

/-- Witness for C3: heavy reference 100, machine rounding, candidate 70
is out of band and resolves to round(82.5) = 85. -/
theorem backoff_band_witness :
    (backoffStep "Seated Cable Row" 100 { backoff_weight := some 70 } {}).backoff_weight =
      some (roundWeightByExercise (100 * 0.825) "Seated Cable Row") :=
  (backoff_band_correction "Seated Cable Row" 100 100 70 { backoff_weight := some 70 } {}
      rfl rfl (by norm_num)).1 (Or.inl (by norm_num))

/-! ## C5: fallback recommendations use only session weights -/

theorem applyFallbackSet_reason (r : Recommendation) (s : ExSet) :
    (applyFallbackSet r s).reason = r.reason := by
  unfold applyFallbackSet
  cases jsOrOpt s.actualWeight s.targetWeight with
  | none => rfl
  | some w =>
    dsimp only
    split_ifs <;> rfl

theorem jsOrOpt_source (x y : Option ℚ) (w : ℚ) (h : jsOrOpt x y = some w) :
    x = some w ∨ y = some w := by
  unfold jsOrOpt at h
  cases x with
  | none => exact Or.inr h
  | some v =>
    dsimp only at h
    by_cases hv : v = 0
    · rw [if_pos hv] at h
      exact Or.inr h
    · rw [if_neg hv] at h
      exact Or.inl h

theorem applyFallbackSet_heavy (r : Recommendation) (s : ExSet) (w : ℚ)
    (h : (applyFallbackSet r s).heavy_weight = some w) :
    r.heavy_weight = some w ∨ (s.actualWeight = some w ∨ s.targetWeight = some w) := by
  unfold applyFallbackSet at h
  cases hw : jsOrOpt s.actualWeight s.targetWeight with
  | none => rw [hw] at h; exact Or.inl h
  | some v =>
    rw [hw] at h
    dsimp only at h
    split_ifs at h <;> (try dsimp only at h) <;>
      first
        | exact Or.inl h
        | (injection h with h2; subst h2; exact Or.inr (jsOrOpt_source _ _ _ hw))

theorem applyFallbackSet_backoff (r : Recommendation) (s : ExSet) (w : ℚ)
    (h : (applyFallbackSet r s).backoff_weight = some w) :
    r.backoff_weight = some w ∨ (s.actualWeight = some w ∨ s.targetWeight = some w) := by
  unfold applyFallbackSet at h
  cases hw : jsOrOpt s.actualWeight s.targetWeight with
  | none => rw [hw] at h; exact Or.inl h
  | some v =>
    rw [hw] at h
    dsimp only at h
    split_ifs at h <;> (try dsimp only at h) <;>
      first
        | exact Or.inl h
        | (injection h with h2; subst h2; exact Or.inr (jsOrOpt_source _ _ _ hw))

theorem applyFallbackSet_working (r : Recommendation) (s : ExSet) (w : ℚ)
    (h : (applyFallbackSet r s).working_weight = some w) :
    r.working_weight = some w ∨ (s.actualWeight = some w ∨ s.targetWeight = some w) := by
  unfold applyFallbackSet at h
  cases hw : jsOrOpt s.actualWeight s.targetWeight with
  | none => rw [hw] at h; exact Or.inl h
  | some v =>
    rw [hw] at h
    dsimp only at h
    split_ifs at h <;> (try dsimp only at h) <;>
      first
        | exact Or.inl h
        | (injection h with h2; subst h2; exact Or.inr (jsOrOpt_source _ _ _ hw))

theorem applyFallbackSet_dropset (r : Recommendation) (s : ExSet) (w : ℚ)
    (h : (applyFallbackSet r s).dropset_weight = some w) :
    r.dropset_weight = some w ∨ (s.actualWeight = some w ∨ s.targetWeight = some w) := by
  unfold applyFallbackSet at h
  cases hw : jsOrOpt s.actualWeight s.targetWeight with
  | none => rw [hw] at h; exact Or.inl h
  | some v =>
    rw [hw] at h
    dsimp only at h
    split_ifs at h <;> (try dsimp only at h) <;>
      first
        | exact Or.inl h
        | (injection h with h2; subst h2; exact Or.inr (jsOrOpt_source _ _ _ hw))

theorem foldl_fallback_reason (sets : List ExSet) (r0 : Recommendation) :
    (sets.foldl applyFallbackSet r0).reason = r0.reason := by
  induction sets generalizing r0 with
  | nil => rfl
  | cons s rest ih => rw [List.foldl_cons, ih, applyFallbackSet_reason]

theorem foldl_fallback_heavy (sets : List ExSet) (r0 : Recommendation) (w : ℚ)
    (h : (sets.foldl applyFallbackSet r0).heavy_weight = some w) :
    r0.heavy_weight = some w ∨
    ∃ s, s ∈ sets ∧ (s.actualWeight = some w ∨ s.targetWeight = some w) := by
  induction sets generalizing r0 with
  | nil => exact Or.inl h
  | cons s rest ih =>
    rw [List.foldl_cons] at h
    rcases ih (applyFallbackSet r0 s) h with h1 | ⟨t, ht, htw⟩
    · rcases applyFallbackSet_heavy r0 s w h1 with h2 | h2
      · exact Or.inl h2
      · exact Or.inr ⟨s, List.mem_cons_self s rest, h2⟩
    · exact Or.inr ⟨t, List.mem_cons_of_mem s ht, htw⟩

theorem foldl_fallback_backoff (sets : List ExSet) (r0 : Recommendation) (w : ℚ)
    (h : (sets.foldl applyFallbackSet r0).backoff_weight = some w) :
    r0.backoff_weight = some w ∨
    ∃ s, s ∈ sets ∧ (s.actualWeight = some w ∨ s.targetWeight = some w) := by
  induction sets generalizing r0 with
  | nil => exact Or.inl h
  | cons s rest ih =>
    rw [List.foldl_cons] at h
    rcases ih (applyFallbackSet r0 s) h with h1 | ⟨t, ht, htw⟩
    · rcases applyFallbackSet_backoff r0 s w h1 with h2 | h2
      · exact Or.inl h2
      · exact Or.inr ⟨s, List.mem_cons_self s rest, h2⟩
    · exact Or.inr ⟨t, List.mem_cons_of_mem s ht, htw⟩

theorem foldl_fallback_working (sets : List ExSet) (r0 : Recommendation) (w : ℚ)
    (h : (sets.foldl applyFallbackSet r0).working_weight = some w) :
    r0.working_weight = some w ∨
    ∃ s, s ∈ sets ∧ (s.actualWeight = some w ∨ s.targetWeight = some w) := by
  induction sets generalizing r0 with
  | nil => exact Or.inl h
  | cons s rest ih =>
    rw [List.foldl_cons] at h
    rcases ih (applyFallbackSet r0 s) h with h1 | ⟨t, ht, htw⟩
    · rcases applyFallbackSet_working r0 s w h1 with h2 | h2
      · exact Or.inl h2
      · exact Or.inr ⟨s, List.mem_cons_self s rest, h2⟩
    · exact Or.inr ⟨t, List.mem_cons_of_mem s ht, htw⟩

theorem foldl_fallback_dropset (sets : List ExSet) (r0 : Recommendation) (w : ℚ)
    (h : (sets.foldl applyFallbackSet r0).dropset_weight = some w) :
    r0.dropset_weight = some w ∨
    ∃ s, s ∈ sets ∧ (s.actualWeight = some w ∨ s.targetWeight = some w) := by
  induction sets generalizing r0 with
  | nil => exact Or.inl h
  | cons s rest ih =>
    rw [List.foldl_cons] at h
    rcases ih (applyFallbackSet r0 s) h with h1 | ⟨t, ht, htw⟩
    · rcases applyFallbackSet_dropset r0 s w h1 with h2 | h2
      · exact Or.inl h2
      · exact Or.inr ⟨s, List.mem_cons_self s rest, h2⟩
    · exact Or.inr ⟨t, List.mem_cons_of_mem s ht, htw⟩

theorem buildFallbackNextWorkout_mem (exerciseData : List (String × ExData))
    (n : String) (r : Recommendation)
    (h : (n, r) ∈ buildFallbackNextWorkout exerciseData) :
    ∃ d, (n, d) ∈ exerciseData ∧ r = buildFallbackRec d.sets := by
  induction exerciseData with
  | nil => cases h
  | cons p rest ih =>
    unfold buildFallbackNextWorkout at h
    dsimp only at h
    split_ifs at h with hc
    · rcases List.mem_cons.mp h with heq | hmem
      · injection heq with h1 h2
        subst h1
        exact ⟨p.2, List.mem_cons_self p rest, h2⟩
      · rcases ih hmem with ⟨d, hd, hr⟩
        exact ⟨d, List.mem_cons_of_mem p hd, hr⟩
    · rcases ih h with ⟨d, hd, hr⟩
      exact ⟨d, List.mem_cons_of_mem p hd, hr⟩

/-- C5.  Every entry of the fallback recommendation built when the model
call or parse fails carries the fallback reason, and each of its weight
fields is verbatim one of the named exercise's own actual or target
weights from the current session. -/
theorem fallback_weights_from_session (exerciseData : List (String × ExData))
    (n : String) (r : Recommendation)
    (hmem : (n, r) ∈ buildFallbackNextWorkout exerciseData) :
    r.reason = some fallbackReason ∧
    (∀ w, r.heavy_weight = some w → weightFromSession exerciseData n w) ∧
    (∀ w, r.backoff_weight = some w → weightFromSession exerciseData n w) ∧
    (∀ w, r.working_weight = some w → weightFromSession exerciseData n w) ∧
    (∀ w, r.dropset_weight = some w → weightFromSession exerciseData n w) := by
  rcases buildFallbackNextWorkout_mem exerciseData n r hmem with ⟨d, hd, rfl⟩
  refine ⟨foldl_fallback_reason d.sets _, ?_, ?_, ?_, ?_⟩
  · intro w hw
    rcases foldl_fallback_heavy d.sets _ w hw with h0 | ⟨s, hs, hsw⟩
    · cases h0
    · exact ⟨d, s, hd, hs, hsw⟩
  · intro w hw
    rcases foldl_fallback_backoff d.sets _ w hw with h0 | ⟨s, hs, hsw⟩
    · cases h0
    · exact ⟨d, s, hd, hs, hsw⟩
  · intro w hw
    rcases foldl_fallback_working d.sets _ w hw with h0 | ⟨s, hs, hsw⟩
    · cases h0
    · exact ⟨d, s, hd, hs, hsw⟩
  · intro w hw
    rcases foldl_fallback_dropset d.sets _ w hw with h0 | ⟨s, hs, hsw⟩
    · cases h0
    · exact ⟨d, s, hd, hs, hsw⟩

/-- Session data for the C5 witness: one working set, target 80,
actual 82. -/
def c5data : List (String × ExData) :=
  [("Leg Press", { sets := [{ type := "working", targetWeight := some 80, actualWeight := some 82 }] })]

/-- Witness for C5 at the concrete session: the fallback holds the
session's own 82 kg working weight and the fallback reason. -/
theorem fallback_weights_witness :
    ({ working_weight := some 82, reason := some fallbackReason } : Recommendation).reason =
        some fallbackReason ∧
    (∀ w, ({ working_weight := some 82, reason := some fallbackReason } : Recommendation).heavy_weight =
        some w → weightFromSession c5data "Leg Press" w) ∧
    (∀ w, ({ working_weight := some 82, reason := some fallbackReason } : Recommendation).backoff_weight =
        some w → weightFromSession c5data "Leg Press" w) ∧
    (∀ w, ({ working_weight := some 82, reason := some fallbackReason } : Recommendation).working_weight =
        some w → weightFromSession c5data "Leg Press" w) ∧
    (∀ w, ({ working_weight := some 82, reason := some fallbackReason } : Recommendation).dropset_weight =
        some w → weightFromSession c5data "Leg Press" w) :=
  fallback_weights_from_session c5data "Leg Press"
    { working_weight := some 82, reason := some fallbackReason } (by decide)
